import Mathlib

/-!
Shallow embedding of the ai-sentiment-analysis-demo core in Lean 4.

The definitions below are translated from the Python sources:
  * `src/worker/analyzer/sentiment.py`   (classifier result mapping)
  * `src/backend/app/services/sentiment_service.py` (store operations)
  * `src/backend/app/routes/sentiments.py` (pagination metadata)
  * `src/backend/app/services/stats_service.py` (summary and timeline aggregation)
  * `src/worker/fetcher/reddit.py`, `src/worker/fetcher/twitter.py` (fetch post-processing)

The MongoDB collection is modelled as a list of documents; the Mongo
primitives the services use (`find_one`, `insert_one`/`insert_many`,
`count_documents`, `find.sort.skip.limit`, `$group`/`$dateToString`/`$sort`)
are modelled per their documented semantics over that list.  Floating point
scores are modelled as rationals, `datetime` values as a calendar structure,
and MongoDB ObjectIds as natural numbers rendered in 24-digit hex.
-/

/-- Lowercase a single ASCII character, as `str.lower` does on ASCII input. -/
def chrLower (c : Char) : Char :=
  if 65 ≤ c.toNat && c.toNat ≤ 90 then Char.ofNat (c.toNat + 32) else c

/-- Model of Python `str.lower()` (`result["label"].lower()` in the analyzer). -/
def strLower (s : String) : String := String.mk (s.data.map chrLower)

/-- Model of Python slicing `s[:n]` on strings. -/
def pyTruncate (s : String) (n : Nat) : String := String.mk (s.data.take n)

/-- Lexicographic order on code-point lists; BSON compares strings this way
(UTF-8 byte order coincides with code-point order). -/
def lexLe : List Char → List Char → Bool
  | [], _ => true
  | _ :: _, [] => false
  | x :: xs, y :: ys =>
    if x.toNat < y.toNat then true
    else if y.toNat < x.toNat then false
    else lexLe xs ys

/-- String order used by the store when sorting timeline bucket keys. -/
def strLe (a b : String) : Bool := lexLe a.data b.data

/-! ## Classifier (`src/worker/analyzer/sentiment.py`) -/

/-- Result from sentiment analysis: label and confidence score. -/
structure AnalysisResult where
  label : String
  score : Rat
deriving DecidableEq, Repr

/-- `SentimentAnalyzer.NEUTRAL_THRESHOLD = 0.6`. -/
def NEUTRAL_THRESHOLD : Rat := 6 / 10

/-- `SentimentAnalyzer._map_result`: lowercases the raw label, overrides to
neutral below the confidence threshold, otherwise maps positive/other to
the tri-state vocabulary, always keeping the raw score. -/
def map_result (rawLabel : String) (score : Rat) : AnalysisResult :=
  let label := strLower rawLabel
  if score < NEUTRAL_THRESHOLD then ⟨"neutral", score⟩
  else if label == "positive" then ⟨"positive", score⟩
  else ⟨"negative", score⟩

/-! ## Timestamps

`created_at` values are UTC datetimes.  We model an instant by its calendar
fields down to the hour (the only components the services compare or format;
`$dateToString` formats in the code never use minutes or seconds). -/

structure DateTime where
  year : Nat
  month : Nat
  day : Nat
  hour : Nat
deriving DecidableEq, Repr

/-- Injective (on in-range fields) encoding giving the chronological order. -/
def DateTime.encode (t : DateTime) : Nat :=
  ((t.year * 13 + t.month) * 32 + t.day) * 25 + t.hour

/-- Chronological comparison of two datetimes (Mongo `$lte`-style). -/
def DateTime.ble (a b : DateTime) : Bool := Nat.ble a.encode b.encode

/-! ## Store data model (`src/backend/app/models/sentiment.py`) -/

/-- `SentimentCreate`: a candidate record submitted for persistence. -/
structure SentimentCreate where
  text : String
  sentiment : String
  score : Rat
  source : String
  source_id : Option String
deriving DecidableEq, Repr

/-- A persisted document in the `sentiments` collection. -/
structure SentDoc where
  _id : Nat
  text : String
  sentiment : String
  score : Rat
  source : String
  source_id : Option String
  created_at : DateTime
deriving DecidableEq, Repr

/-- The collection state: stored documents plus the next ObjectId to assign. -/
structure Store where
  docs : List SentDoc
  nextId : Nat
deriving DecidableEq, Repr

/-- `BatchCreateResult` returned by `create_batch`. -/
structure BatchCreateResult where
  created_count : Nat
  skipped_count : Nat
deriving DecidableEq, Repr

namespace SentimentService

/-- Python truthiness of the optional `source_id` (`if r.source_id`): present
and non-empty. -/
def truthy : Option String → Bool
  | none => false
  | some s => !s.isEmpty

/-- Mongo `find_one({"source": source, "source_id": source_id})` as a
Boolean existence check over the collection. -/
def findOnePair (docs : List SentDoc) (source : String) (source_id : Option String) : Bool :=
  docs.any (fun d => d.source == source && d.source_id == source_id)

/-- Build the document inserted for a candidate, with an assigned ObjectId
and the server-side `created_at` capture. -/
def mkDoc (r : SentimentCreate) (oid : Nat) (now : DateTime) : SentDoc :=
  ⟨oid, r.text, r.sentiment, r.score, r.source, r.source_id, now⟩

/-- Documents built by `insert_many` for a queued list, with consecutive
ObjectIds and one shared `created_at`. -/
def mkDocs : List SentimentCreate → Nat → DateTime → List SentDoc
  | [], _, _ => []
  | r :: rs, base, now => mkDoc r base now :: mkDocs rs (base + 1) now

/-- `SentimentService.create`: unconditional single insert (no dedup check). -/
def create (st : Store) (now : DateTime) (data : SentimentCreate) : Store × SentDoc :=
  let doc := mkDoc data st.nextId now
  (⟨st.docs ++ [doc], st.nextId + 1⟩, doc)

/-- `records_with_id = [r for r in records if r.source_id]`. -/
def records_with_id (records : List SentimentCreate) : List SentimentCreate :=
  records.filter (fun r => truthy r.source_id)

/-- `records_without_id = [r for r in records if not r.source_id]`. -/
def records_without_id (records : List SentimentCreate) : List SentimentCreate :=
  records.filter (fun r => !truthy r.source_id)

/-- The `existing_ids` set accumulated by the first loop of `create_batch`:
the `(source, source_id)` pairs of id-bearing candidates whose pair was found
in the collection by `find_one`.  (Checks all run before any insertion.) -/
def existing_ids (st : Store) (records : List SentimentCreate) :
    List (String × Option String) :=
  ((records_with_id records).filter
    (fun r => findOnePair st.docs r.source r.source_id)).map
      (fun r => (r.source, r.source_id))

/-- Candidates counted as skipped by the second loop of `create_batch`
(Python set membership `(record.source, record.source_id) in existing_ids`). -/
def batchSkipped (st : Store) (records : List SentimentCreate) : Nat :=
  ((records_with_id records).filter
    (fun r => decide ((r.source, r.source_id) ∈ existing_ids st records))).length

/-- The `to_insert` list of `create_batch`: id-bearing candidates whose pair
was not found, followed by all id-less candidates. -/
def batchToInsert (st : Store) (records : List SentimentCreate) :
    List SentimentCreate :=
  (records_with_id records).filter
    (fun r => !decide ((r.source, r.source_id) ∈ existing_ids st records))
    ++ records_without_id records

/-- `SentimentService.create_batch`: dedup-aware batch insert returning
created and skipped counts. -/
def create_batch (st : Store) (now : DateTime) (records : List SentimentCreate) :
    Store × BatchCreateResult :=
  let to_insert := batchToInsert st records
  (⟨st.docs ++ mkDocs to_insert st.nextId now, st.nextId + to_insert.length⟩,
   ⟨to_insert.length, batchSkipped st records⟩)

/-! ### get_by_id (`ObjectId` parsing and lookup) -/

/-- Error taxonomy surfaced by the service (`app.exceptions`). -/
inductive ApiError where
  | validation (message : String)
  | notFound (resource : String) (resource_id : String)
deriving DecidableEq, Repr

/-- Hex digit test used by `bson.ObjectId` validation (24 hex chars). -/
def isHexChar (c : Char) : Bool :=
  c.isDigit || (97 ≤ c.toNat && c.toNat ≤ 102) || (65 ≤ c.toNat && c.toNat ≤ 70)

/-- Numeric value of a hex digit (case-insensitive). -/
def hexVal (c : Char) : Nat :=
  if c.isDigit then c.toNat - 48
  else if 97 ≤ c.toNat then c.toNat - 97 + 10
  else c.toNat - 65 + 10

/-- `ObjectId(s)`: accepts exactly 24-character hex strings (either case),
yielding the underlying 12-byte value; anything else raises `InvalidId`. -/
def parseObjectId (s : String) : Option Nat :=
  if s.length == 24 && s.data.all isHexChar then
    some (s.data.foldl (fun acc c => acc * 16 + hexVal c) 0)
  else none

/-- `SentimentService.get_by_id`: malformed ids fail validation before the
collection is consulted; well-formed ids miss with NotFound. -/
def get_by_id (docs : List SentDoc) (sentiment_id : String) : Except ApiError SentDoc :=
  match parseObjectId sentiment_id with
  | none => .error (.validation ("Invalid sentiment ID format: " ++ sentiment_id))
  | some oid =>
    match docs.find? (fun d => d._id == oid) with
    | none => .error (.notFound "Sentiment" sentiment_id)
    | some doc => .ok doc

/-! ### Filtered pagination -/

/-- `SentimentFilter` query-side value object. -/
structure SentimentFilter where
  sentiment : Option String
  source : Option String
  date_from : Option DateTime
  date_to : Option DateTime
deriving DecidableEq, Repr

/-- The Mongo query built by `_build_filter_query`, as a document predicate:
exact match on sentiment/source, inclusive range on `created_at`. -/
def matchesFilter (f : SentimentFilter) (d : SentDoc) : Bool :=
  (match f.sentiment with
   | none => true
   | some s => d.sentiment == s) &&
  (match f.source with
   | none => true
   | some s => d.source == s) &&
  (match f.date_from with
   | none => true
   | some t => DateTime.ble t d.created_at) &&
  (match f.date_to with
   | none => true
   | some t => DateTime.ble d.created_at t)

/-- Comparator for `.sort("created_at", -1)`: descending by `created_at`. -/
def createdDesc (a b : SentDoc) : Bool :=
  Nat.ble b.created_at.encode a.created_at.encode

/-- `SentimentService.get_paginated`: count over the full filtered set, then
sort descending, skip `(page-1)*limit`, take `limit`. -/
def get_paginated (docs : List SentDoc) (page limit : Nat) (filters : SentimentFilter) :
    List SentDoc × Nat :=
  let query := docs.filter (matchesFilter filters)
  let total := query.length
  let sorted := query.mergeSort createdDesc
  ((sorted.drop ((page - 1) * limit)).take limit, total)

/-- Pagination metadata assembled by the `list_sentiments` route. -/
structure PaginationMeta where
  page : Nat
  limit : Nat
  total : Nat
  total_pages : Nat
deriving DecidableEq, Repr

/-- The `list_sentiments` route handler:
`total_pages = (total + limit - 1) // limit if total > 0 else 0`. -/
def list_sentiments (docs : List SentDoc) (page limit : Nat)
    (filters : SentimentFilter) : List SentDoc × PaginationMeta :=
  let pr := get_paginated docs page limit filters
  let total_pages := if pr.2 > 0 then (pr.2 + limit - 1) / limit else 0
  (pr.1, ⟨page, limit, pr.2, total_pages⟩)

end SentimentService

/-! ## Uniqueness invariant (spec section 3)

The dedup key of a stored document is its `(source, source_id)` pair, only
constrained when `source_id` is present (truthy). -/

/-- Dedup pairs of the id-bearing documents of a collection, in order. -/
def docPairs (docs : List SentDoc) : List (String × Option String) :=
  (docs.filter (fun d => SentimentService.truthy d.source_id)).map
    (fun d => (d.source, d.source_id))

/-- Dedup pairs of the id-bearing candidates of a batch, in order. -/
def recordPairs (records : List SentimentCreate) : List (String × Option String) :=
  (records.filter (fun r => SentimentService.truthy r.source_id)).map
    (fun r => (r.source, r.source_id))

/-- The `(source, source_id)` uniqueness invariant on a collection. -/
def uniquePairs (docs : List SentDoc) : Prop := (docPairs docs).Nodup

instance (docs : List SentDoc) : Decidable (uniquePairs docs) := by
  unfold uniquePairs; infer_instance

/-! ## Statistics service (`src/backend/app/services/stats_service.py`) -/

namespace StatsService

/-- Accumulator of the `$group` stage of `get_summary`: document count,
per-label conditional sums, and the running score sum backing `$avg`. -/
structure GroupAcc where
  total : Nat
  positive : Nat
  negative : Nat
  neutral : Nat
  score_sum : Rat
deriving DecidableEq, Repr

/-- One-pass evaluation of the `get_summary` aggregation pipeline group
stage over the collection. -/
def summaryGroup (docs : List SentDoc) : GroupAcc :=
  docs.foldl
    (fun a d =>
      ⟨a.total + 1,
       a.positive + (if d.sentiment == "positive" then 1 else 0),
       a.negative + (if d.sentiment == "negative" then 1 else 0),
       a.neutral + (if d.sentiment == "neutral" then 1 else 0),
       a.score_sum + d.score⟩)
    ⟨0, 0, 0, 0, 0⟩

/-- Python `round` (banker's rounding) to the nearest integer, on exact
rationals. -/
def pyRoundInt (q : Rat) : Int :=
  let f : Int := q.floor
  let frac := q - f
  if frac < 1 / 2 then f
  else if 1 / 2 < frac then f + 1
  else if f % 2 = 0 then f else f + 1

/-- Python `round(q, places)`. -/
def pyRound (places : Nat) (q : Rat) : Rat :=
  (pyRoundInt (q * (10 : Rat) ^ places) : Rat) / (10 : Rat) ^ places

/-- `SentimentStats` response model. -/
structure SentimentStats where
  total_count : Nat
  positive_count : Nat
  negative_count : Nat
  neutral_count : Nat
  positive_percentage : Rat
  negative_percentage : Rat
  neutral_percentage : Rat
  average_score : Rat
deriving DecidableEq, Repr

/-- `StatsService.get_summary`: with an empty collection the `$group` stage
emits no document and the zero stats are returned; otherwise percentages are
`round(count/total*100, 2)` and the average score is `round(avg, 4)`. -/
def get_summary (docs : List SentDoc) : SentimentStats :=
  if docs.isEmpty then ⟨0, 0, 0, 0, 0, 0, 0, 0⟩
  else
    let g := summaryGroup docs
    { total_count := g.total
      positive_count := g.positive
      negative_count := g.negative
      neutral_count := g.neutral
      positive_percentage :=
        if g.total > 0 then pyRound 2 ((g.positive : Rat) / (g.total : Rat) * 100) else 0
      negative_percentage :=
        if g.total > 0 then pyRound 2 ((g.negative : Rat) / (g.total : Rat) * 100) else 0
      neutral_percentage :=
        if g.total > 0 then pyRound 2 ((g.neutral : Rat) / (g.total : Rat) * 100) else 0
      average_score := pyRound 4 (g.score_sum / (g.total : Rat)) }

/-! ### Timeline (`$dateToString` calendar formatting and bucketing) -/

/-- Gregorian leap-year test. -/
def isLeap (y : Nat) : Bool := (y % 4 == 0 && y % 100 != 0) || y % 400 == 0

/-- Length of a month (1-12) in year `y`. -/
def daysInMonth (y m : Nat) : Nat :=
  if m = 2 then (if isLeap y then 29 else 28)
  else if m = 4 ∨ m = 6 ∨ m = 9 ∨ m = 11 then 30
  else 31

/-- Ordinal day of the year (1-366). -/
def dayOfYear (y m d : Nat) : Nat :=
  (List.range (m - 1)).foldl (fun acc i => acc + daysInMonth y (i + 1)) 0 + d

/-- Day of week by Zeller's congruence; 0 = Saturday, ..., 6 = Friday. -/
def zellerDow (y m d : Nat) : Nat :=
  let mm := if m ≤ 2 then m + 12 else m
  let yy := if m ≤ 2 then y - 1 else y
  let K := yy % 100
  let J := yy / 100
  (d + 13 * (mm + 1) / 5 + K + K / 4 + J / 4 + 5 * J) % 7

/-- ISO weekday: Monday = 1 through Sunday = 7. -/
def isoDayOfWeek (y m d : Nat) : Nat := (zellerDow y m d + 5) % 7 + 1

/-- Number of ISO weeks (52 or 53) in year `y`. -/
def weeksInYear (y : Nat) : Nat :=
  let p := fun (yr : Nat) => (yr + yr / 4 - yr / 100 + yr / 400) % 7
  if p y = 4 ∨ p (y - 1) = 3 then 53 else 52

/-- ISO 8601 week number (1-53), the `%V` specifier of `$dateToString`. -/
def isoWeekNumber (y m d : Nat) : Nat :=
  let w := (dayOfYear y m d + 10 - isoDayOfWeek y m d) / 7
  if w = 0 then weeksInYear (y - 1)
  else if w = 53 ∧ weeksInYear y = 52 then 1
  else w

/-- Two-digit zero-padded decimal rendering (`%m`, `%d`, `%H`, `%V`). -/
def pad2 (n : Nat) : String :=
  if n < 10 then "0" ++ toString n else toString n

/-- Four-digit zero-padded decimal rendering (`%Y`). -/
def pad4 (n : Nat) : String :=
  if n < 10 then "000" ++ toString n
  else if n < 100 then "00" ++ toString n
  else if n < 1000 then "0" ++ toString n
  else toString n

/-- The `$dateToString` bucket key for a granularity, per the format table
of `get_timeline` (`hour`, `week`, `month`; `day` and any other value use
the `%Y-%m-%d` default). -/
def formatKey (granularity : String) (t : DateTime) : String :=
  if granularity == "hour" then
    pad4 t.year ++ "-" ++ pad2 t.month ++ "-" ++ pad2 t.day ++ "T" ++ pad2 t.hour ++ ":00:00"
  else if granularity == "week" then
    pad4 t.year ++ "-W" ++ pad2 (isoWeekNumber t.year t.month t.day)
  else if granularity == "month" then
    pad4 t.year ++ "-" ++ pad2 t.month
  else
    pad4 t.year ++ "-" ++ pad2 t.month ++ "-" ++ pad2 t.day

/-- The `$match` stage of `get_timeline`: optional inclusive date bounds. -/
def inDateRange (date_from date_to : Option DateTime) (d : SentDoc) : Bool :=
  (match date_from with
   | none => true
   | some t => DateTime.ble t d.created_at) &&
  (match date_to with
   | none => true
   | some t => DateTime.ble d.created_at t)

/-- `TimelinePoint` response model. -/
structure TimelinePoint where
  date : String
  positive : Nat
  negative : Nat
  neutral : Nat
  total : Nat
deriving DecidableEq, Repr

/-- `StatsService.get_timeline`: filter by the optional date range, group by
the formatted bucket key (one group per distinct key), count each label and
the total per group, and sort the groups ascending by key (`$sort _id: 1`). -/
def get_timeline (docs : List SentDoc) (date_from date_to : Option DateTime)
    (granularity : String) : List TimelinePoint :=
  let filtered := docs.filter (inDateRange date_from date_to)
  let keys :=
    ((filtered.map (fun d => formatKey granularity d.created_at)).dedup).mergeSort strLe
  keys.map (fun k =>
    let group := filtered.filter (fun d => formatKey granularity d.created_at == k)
    { date := k
      positive := group.countP (fun d => d.sentiment == "positive")
      negative := group.countP (fun d => d.sentiment == "negative")
      neutral := group.countP (fun d => d.sentiment == "neutral")
      total := group.length })

end StatsService

/-! ## Fetchers (`src/worker/fetcher/reddit.py`, `src/worker/fetcher/twitter.py`)

We embed the post-processing each `fetch` applies to a successfully parsed
API response body (the HTTP transport and retry mechanics are outside the
shallow embedding).  Origin timestamps are carried as opaque naturals. -/

/-- Standardized post produced by a fetcher (`worker/fetcher/base.py`). -/
structure FetchedPost where
  source_id : String
  text : String
  source : String
  author : String
  created_at : Nat
deriving DecidableEq, Repr

namespace RedditFetcher

/-- Parsed fields of one Reddit listing child used by `fetch`. -/
structure RedditPost where
  post_id : String
  title : String
  selftext : String
  author : String
  created_utc : Nat
deriving DecidableEq, Repr

/-- Per-post processing in the `fetch` loop: combine title and selftext
(unless the selftext is empty or the `[removed]` marker), drop texts shorter
than 10 characters, and truncate the kept text to 5000 characters. -/
def processPost (post : RedditPost) : Option FetchedPost :=
  let text := post.title
  let text :=
    if !post.selftext.isEmpty && post.selftext != "[removed]" then
      text ++ ". " ++ post.selftext
    else text
  if text.length < 10 then none
  else some ⟨post.post_id, pyTruncate text 5000, "reddit", post.author, post.created_utc⟩

/-- `RedditFetcher.fetch` over a parsed successful search response. -/
def fetch (children : List RedditPost) : List FetchedPost :=
  children.filterMap processPost

end RedditFetcher

namespace TwitterFetcher

/-- Parsed fields of one tweet in a recent-search response. -/
structure Tweet where
  tweet_id : String
  text : String
  author_id : String
  created_at : Nat
deriving DecidableEq, Repr

/-- `TwitterFetcher.fetch` over a parsed successful response: every tweet
is converted 1:1 into a post (no text filtering), resolving the author via
the `includes.users` lookup with fallback `"unknown"`. -/
def fetch (tweets : List Tweet) (users : List (String × String)) : List FetchedPost :=
  tweets.map (fun t =>
    ⟨t.tweet_id, t.text, "twitter", ((users.lookup t.author_id).getD "unknown"),
     t.created_at⟩)

end TwitterFetcher

/-! ## Concrete data used by witnesses and counterexamples -/

/-- A candidate carrying a `source_id`, for concrete store scenarios. -/
def wr1 : SentimentCreate := ⟨"really great stuff", "positive", 1, "twitter", some "t1"⟩

/-- A second id-bearing candidate with a distinct `(source, source_id)`. -/
def wr2 : SentimentCreate := ⟨"really bad stuff", "negative", 1, "twitter", some "t2"⟩

/-- A candidate without a `source_id`. -/
def wr3 : SentimentCreate := ⟨"manual entry text", "neutral", 0, "manual", none⟩

/-- A stored document from 2024-01-01. -/
def wdoc1 : SentDoc := ⟨1, "alpha text", "positive", 1, "twitter", some "a", ⟨2024, 1, 1, 0⟩⟩

/-- A stored document from 2024-01-02. -/
def wdoc2 : SentDoc := ⟨2, "beta text", "negative", 1, "twitter", some "b", ⟨2024, 1, 2, 0⟩⟩

/-- The all-pass filter (every field absent). -/
def wnofilter : SentimentService.SentimentFilter := ⟨none, none, none, none⟩

/-! # Shared lemmas -/

open SentimentService StatsService

theorem length_filter_partition {α : Type} (p : α → Bool) (l : List α) :
    (l.filter p).length + (l.filter (fun a => !p a)).length = l.length := by
  induction l with
  | nil => rfl
  | cons x xs ih => by_cases h : p x <;> simp [List.filter_cons, h] <;> omega

theorem lt_div_succ_mul (a b : Nat) (hb : 0 < b) : a < (a / b + 1) * b := by
  have h1 := Nat.div_add_mod a b
  have h2 := Nat.mod_lt a hb
  have h3 : (a / b + 1) * b = b * (a / b) + b := by ring
  omega

theorem mkDocs_length (rs : List SentimentCreate) (base : Nat) (now : DateTime) :
    (mkDocs rs base now).length = rs.length := by
  induction rs generalizing base with
  | nil => rfl
  | cons r rs ih => simp [mkDocs, ih]

theorem mkDocs_any_pair (rs : List SentimentCreate) (base : Nat) (now : DateTime)
    (r : SentimentCreate) (hr : r ∈ rs) :
    (mkDocs rs base now).any (fun d => d.source == r.source && d.source_id == r.source_id)
      = true := by
  induction rs generalizing base with
  | nil => cases hr
  | cons x xs ih =>
    rcases List.mem_cons.mp hr with h | h
    · subst h; simp [mkDocs, mkDoc]
    · simp [mkDocs, List.any_cons, ih _ h]

theorem mem_existing_ids (st : Store) (records : List SentimentCreate)
    (r : SentimentCreate) (hr : r ∈ records_with_id records) :
    ((r.source, r.source_id) ∈ existing_ids st records)
      ↔ findOnePair st.docs r.source r.source_id = true := by
  unfold existing_ids
  constructor
  · intro h
    rcases List.mem_map.mp h with ⟨r', hr', hpair⟩
    rcases List.mem_filter.mp hr' with ⟨_, hfind⟩
    have hs : r'.source = r.source := congrArg Prod.fst hpair
    have hsid : r'.source_id = r.source_id := congrArg Prod.snd hpair
    rw [← hs, ← hsid]
    exact hfind
  · intro h
    exact List.mem_map.mpr ⟨r, List.mem_filter.mpr ⟨hr, h⟩, rfl⟩

/-! # Claim theorems -/

/-- C1: `_map_result` keeps the raw confidence score unchanged; below the
0.6 threshold the label is overridden to neutral regardless of the raw
label; at or above the threshold the raw binary label is mapped into the
three-way vocabulary (raw positive to positive, any other raw label to
negative). -/
theorem classifier_threshold_mapping (rawLabel : String) (score : Rat) :
    (map_result rawLabel score).score = score ∧
    (score < NEUTRAL_THRESHOLD → (map_result rawLabel score).label = "neutral") ∧
    (NEUTRAL_THRESHOLD ≤ score →
      (map_result rawLabel score).label =
        (if strLower rawLabel == "positive" then "positive" else "negative")) := by
  unfold map_result
  by_cases h : score < NEUTRAL_THRESHOLD
  · refine ⟨by simp [h], fun _ => by simp [h], fun hle => absurd hle (by simpa using h)⟩
  · refine ⟨?_, fun hlt => absurd hlt h, fun _ => ?_⟩
    · by_cases hb : strLower rawLabel == "positive" <;> simp [h, hb]
    · by_cases hb : strLower rawLabel == "positive" <;> simp [h, hb]

/-- Witness for C1 at concrete inputs: a low-confidence raw POSITIVE becomes
neutral, a high-confidence raw POSITIVE stays positive. -/
theorem classifier_threshold_mapping_witness :
    ((1 : Rat) / 2 < NEUTRAL_THRESHOLD ∧
      (map_result "POSITIVE" (1 / 2)).label = "neutral") ∧
    (NEUTRAL_THRESHOLD ≤ (9 : Rat) / 10 ∧
      (map_result "POSITIVE" (9 / 10)).label = "positive") := by
  constructor
  · exact ⟨by norm_num [NEUTRAL_THRESHOLD],
      (classifier_threshold_mapping "POSITIVE" (1 / 2)).2.1
        (by norm_num [NEUTRAL_THRESHOLD])⟩
  · refine ⟨by norm_num [NEUTRAL_THRESHOLD], ?_⟩
    have h := (classifier_threshold_mapping "POSITIVE" (9 / 10)).2.2
      (by norm_num [NEUTRAL_THRESHOLD])
    rw [h]
    decide

/-- C10: `create_batch` accounts for every submitted candidate exactly once:
the returned created and skipped counts always sum to the batch size. -/
theorem create_batch_counts_complete (st : Store) (now : DateTime)
    (records : List SentimentCreate) :
    (create_batch st now records).2.created_count
      + (create_batch st now records).2.skipped_count = records.length := by
  show (batchToInsert st records).length + batchSkipped st records = records.length
  unfold batchToInsert batchSkipped
  rw [List.length_append]
  have h1 := length_filter_partition
    (fun r => decide ((r.source, r.source_id) ∈ existing_ids st records))
    (records_with_id records)
  have h2 := length_filter_partition (fun r => truthy r.source_id) records
  unfold records_with_id records_without_id
  unfold records_with_id at h1
  omega

/-- C8: an id-less candidate is always queued for insertion, and submitting
the same id-less candidate in two successive batches creates one record each
time, appending two stored documents with distinct ids. -/
theorem create_batch_never_dedups_idless
    (st : Store) (now1 now2 : DateTime) (r : SentimentCreate)
    (records : List SentimentCreate) (h : truthy r.source_id = false) :
    (r ∈ records → r ∈ batchToInsert st records) ∧
    (create_batch st now1 [r]).2 = ⟨1, 0⟩ ∧
    (create_batch (create_batch st now1 [r]).1 now2 [r]).2 = ⟨1, 0⟩ ∧
    (create_batch (create_batch st now1 [r]).1 now2 [r]).1.docs
      = st.docs ++ [mkDoc r st.nextId now1] ++ [mkDoc r (st.nextId + 1) now2] ∧
    (mkDoc r st.nextId now1)._id ≠ (mkDoc r (st.nextId + 1) now2)._id := by
  refine ⟨?_, ?_, ?_, ?_, by simp [mkDoc]⟩
  · intro hr
    unfold batchToInsert
    exact List.mem_append_right _
      (List.mem_filter.mpr ⟨hr, by simp [h]⟩)
  · simp [create_batch, batchToInsert, batchSkipped, existing_ids,
      records_with_id, records_without_id, List.filter_cons, h, mkDocs]
  · simp [create_batch, batchToInsert, batchSkipped, existing_ids,
      records_with_id, records_without_id, List.filter_cons, h, mkDocs]
  · simp [create_batch, batchToInsert, batchSkipped, existing_ids,
      records_with_id, records_without_id, List.filter_cons, h, mkDocs, mkDoc]

/-- Witness for C8: a concrete id-less candidate, submitted twice to an
empty store, is created both times. -/
theorem create_batch_never_dedups_idless_witness :
    truthy wr3.source_id = false ∧
    (create_batch (create_batch ⟨[], 0⟩ ⟨2024, 1, 1, 0⟩ [wr3]).1
      ⟨2024, 1, 2, 0⟩ [wr3]).2 = ⟨1, 0⟩ := by
  refine ⟨by decide, ?_⟩
  exact (create_batch_never_dedups_idless ⟨[], 0⟩ ⟨2024, 1, 1, 0⟩ ⟨2024, 1, 2, 0⟩
    wr3 [] (by decide)).2.2.1

theorem filter_eq_nil_of_false {α : Type} {p : α → Bool} {l : List α}
    (h : ∀ a ∈ l, p a = false) : l.filter p = [] := by
  induction l with
  | nil => rfl
  | cons x xs ih =>
    rw [List.filter_cons]
    simp [h x (List.mem_cons_self x xs), ih (fun a ha => h a (List.mem_cons_of_mem x ha))]

/-- C2: for a batch of id-bearing candidates with pairwise-distinct
`(source, source_id)` pairs, none pre-existing in the store, the first
`create_batch` creates everything and skips nothing, and an immediate
identical resubmission creates nothing and skips everything. -/
theorem create_batch_idempotent
    (st : Store) (now1 now2 : DateTime) (records : List SentimentCreate)
    (hall : ∀ r ∈ records, truthy r.source_id = true)
    (_hnodup : (recordPairs records).Nodup)
    (hnew : ∀ r ∈ records, findOnePair st.docs r.source r.source_id = false) :
    (create_batch st now1 records).2 = ⟨records.length, 0⟩ ∧
    (create_batch (create_batch st now1 records).1 now2 records).2
      = ⟨0, records.length⟩ := by
  have hwid : records_with_id records = records := List.filter_eq_self.mpr hall
  have hwoid : records_without_id records = [] := by
    unfold records_without_id
    exact filter_eq_nil_of_false (fun a ha => by simp [hall a ha])
  have hex1 : existing_ids st records = [] := by
    unfold existing_ids
    rw [hwid, filter_eq_nil_of_false (fun a ha => hnew a ha)]
    rfl
  have hti1 : batchToInsert st records = records := by
    unfold batchToInsert
    rw [hwid, hwoid, hex1, List.append_nil]
    exact List.filter_eq_self.mpr (fun a _ => by simp)
  have hsk1 : batchSkipped st records = 0 := by
    unfold batchSkipped
    rw [hwid, hex1, filter_eq_nil_of_false (fun a _ => by simp)]
    rfl
  have hres1 : (create_batch st now1 records).2 = ⟨records.length, 0⟩ := by
    show (⟨(batchToInsert st records).length, batchSkipped st records⟩ : BatchCreateResult) = _
    rw [hti1, hsk1]
  have hdocs1 : (create_batch st now1 records).1.docs
      = st.docs ++ mkDocs records st.nextId now1 := by
    show st.docs ++ mkDocs (batchToInsert st records) st.nextId now1 = _
    rw [hti1]
  have hfound : ∀ r ∈ records,
      findOnePair (create_batch st now1 records).1.docs r.source r.source_id = true := by
    intro r hr
    rw [hdocs1]
    unfold findOnePair
    rw [List.any_append, mkDocs_any_pair records st.nextId now1 r hr, Bool.or_true]
  have hex2mem : ∀ r ∈ records,
      (r.source, r.source_id) ∈ existing_ids (create_batch st now1 records).1 records := by
    intro r hr
    exact (mem_existing_ids _ records r (by rw [hwid]; exact hr)).mpr (hfound r hr)
  have hsk2 : batchSkipped (create_batch st now1 records).1 records = records.length := by
    unfold batchSkipped
    rw [hwid, List.filter_eq_self.mpr (fun a ha => by simp [hex2mem a ha])]
  have hti2 : batchToInsert (create_batch st now1 records).1 records = [] := by
    unfold batchToInsert
    rw [hwid, hwoid, List.append_nil]
    exact filter_eq_nil_of_false (fun a ha => by simp [hex2mem a ha])
  refine ⟨hres1, ?_⟩
  show (⟨(batchToInsert (create_batch st now1 records).1 records).length,
    batchSkipped (create_batch st now1 records).1 records⟩ : BatchCreateResult) = _
  rw [hti2, hsk2]
  rfl

/-- Witness for C2: a concrete two-candidate batch against an empty store. -/
theorem create_batch_idempotent_witness :
    (∀ r ∈ [wr1, wr2], truthy r.source_id = true) ∧
    (recordPairs [wr1, wr2]).Nodup ∧
    (create_batch ⟨[], 0⟩ ⟨2024, 1, 1, 0⟩ [wr1, wr2]).2 = ⟨2, 0⟩ ∧
    (create_batch (create_batch ⟨[], 0⟩ ⟨2024, 1, 1, 0⟩ [wr1, wr2]).1
      ⟨2024, 1, 2, 0⟩ [wr1, wr2]).2 = ⟨0, 2⟩ := by
  have h := create_batch_idempotent ⟨[], 0⟩ ⟨2024, 1, 1, 0⟩ ⟨2024, 1, 2, 0⟩
    [wr1, wr2] (by decide) (by decide) (by decide)
  exact ⟨by decide, by decide, h.1, h.2⟩

theorem docPairs_append (a b : List SentDoc) :
    docPairs (a ++ b) = docPairs a ++ docPairs b := by
  simp [docPairs, List.filter_append]

theorem recordPairs_append (a b : List SentimentCreate) :
    recordPairs (a ++ b) = recordPairs a ++ recordPairs b := by
  simp [recordPairs, List.filter_append]

theorem docPairs_mkDocs (rs : List SentimentCreate) (base : Nat) (now : DateTime) :
    docPairs (mkDocs rs base now) = recordPairs rs := by
  induction rs generalizing base with
  | nil => rfl
  | cons r rs ih =>
    by_cases h : truthy r.source_id <;>
      simp [mkDocs, docPairs, recordPairs, List.filter_cons, mkDoc, h] <;>
      simpa [docPairs, recordPairs] using ih (base + 1)

theorem recordPairs_without_id_nil (records : List SentimentCreate) :
    recordPairs (records_without_id records) = [] := by
  unfold recordPairs records_without_id
  rw [List.filter_filter, filter_eq_nil_of_false (fun a _ => by simp)]
  rfl

theorem recordPairs_with_id (records : List SentimentCreate) :
    recordPairs (records_with_id records) = recordPairs records := by
  unfold recordPairs records_with_id
  rw [List.filter_filter]
  exact congrArg _ (List.filter_congr (fun x _ => Bool.and_self _))

theorem recordPairs_filter_sublist (p : SentimentCreate → Bool)
    (rs : List SentimentCreate) :
    (recordPairs (rs.filter p)).Sublist (recordPairs rs) := by
  unfold recordPairs
  exact List.Sublist.map _ (List.Sublist.filter _ (List.filter_sublist rs))

/-- C3 counterexample: starting from the empty store (which satisfies the
`(source, source_id)` uniqueness invariant), two `create` calls with the
same id-bearing candidate yield two stored records with the same pair:
`create` performs no dedup check. -/
theorem create_violates_unique_pairs :
    uniquePairs (⟨[], 0⟩ : Store).docs ∧
    ¬ uniquePairs
      (create (create ⟨[], 0⟩ ⟨2024, 1, 1, 0⟩ wr1).1 ⟨2024, 1, 1, 0⟩ wr1).1.docs := by
  constructor
  · decide
  · decide

/-- C3 (amended): `create_batch` preserves `(source, source_id)` uniqueness
whenever the id-bearing candidates of the submitted batch have
pairwise-distinct pairs; `create` checks nothing and can violate it. -/
theorem create_batch_preserves_unique_pairs
    (st : Store) (now : DateTime) (records : List SentimentCreate)
    (hu : uniquePairs st.docs)
    (hnodup : (recordPairs records).Nodup) :
    uniquePairs (create_batch st now records).1.docs := by
  show (docPairs (st.docs ++ mkDocs (batchToInsert st records) st.nextId now)).Nodup
  rw [docPairs_append, docPairs_mkDocs, List.nodup_append]
  refine ⟨hu, ?_, ?_⟩
  · apply List.Nodup.sublist _ hnodup
    unfold batchToInsert
    rw [recordPairs_append, recordPairs_without_id_nil, List.append_nil]
    have hsub := recordPairs_filter_sublist
      (fun r => !decide ((r.source, r.source_id) ∈ existing_ids st records))
      (records_with_id records)
    rw [recordPairs_with_id] at hsub
    exact hsub
  · intro p hp hp2
    unfold batchToInsert at hp2
    rw [recordPairs_append, recordPairs_without_id_nil, List.append_nil] at hp2
    unfold recordPairs at hp2
    rcases List.mem_map.mp hp2 with ⟨r, hrf, hrp⟩
    rcases List.mem_filter.mp hrf with ⟨hrq, _⟩
    rcases List.mem_filter.mp hrq with ⟨hrw, hq⟩
    unfold docPairs at hp
    rcases List.mem_map.mp hp with ⟨d, hdf, hdp⟩
    rcases List.mem_filter.mp hdf with ⟨hd, _⟩
    have hpair := hdp.trans hrp.symm
    have hfind : findOnePair st.docs r.source r.source_id = true := by
      unfold findOnePair
      rw [List.any_eq_true]
      refine ⟨d, hd, ?_⟩
      have h1 : d.source = r.source := congrArg Prod.fst hpair
      have h2 : d.source_id = r.source_id := congrArg Prod.snd hpair
      simp [h1, h2]
    have hmem := (mem_existing_ids st records r hrw).mpr hfind
    simp [hmem] at hq

/-- Witness for the amended C3 at a concrete batch over the empty store. -/
theorem create_batch_preserves_unique_pairs_witness :
    uniquePairs (⟨[], 0⟩ : Store).docs ∧
    (recordPairs [wr1, wr2]).Nodup ∧
    uniquePairs (create_batch ⟨[], 0⟩ ⟨2024, 1, 1, 0⟩ [wr1, wr2]).1.docs :=
  ⟨by decide, by decide,
    create_batch_preserves_unique_pairs ⟨[], 0⟩ ⟨2024, 1, 1, 0⟩ [wr1, wr2]
      (by decide) (by decide)⟩

/-- C7: `get_by_id` rejects a malformed id with a validation error before
consulting the store, reports NotFound only for well-formed ids that match
no document, and never reports a malformed id as NotFound. -/
theorem get_by_id_error_modes (docs : List SentDoc) (sentiment_id : String) :
    (parseObjectId sentiment_id = none →
      get_by_id docs sentiment_id
        = .error (.validation ("Invalid sentiment ID format: " ++ sentiment_id))) ∧
    (∀ oid : Nat, parseObjectId sentiment_id = some oid →
      docs.find? (fun d => d._id == oid) = none →
      get_by_id docs sentiment_id = .error (.notFound "Sentiment" sentiment_id)) ∧
    (∀ resource rid,
      get_by_id docs sentiment_id = .error (.notFound resource rid) →
      parseObjectId sentiment_id ≠ none) := by
  refine ⟨?_, ?_, ?_⟩
  · intro h
    unfold get_by_id
    rw [h]
  · intro oid h hf
    unfold get_by_id
    rw [h]
    dsimp only
    rw [hf]
  · intro resource rid h hnone
    unfold get_by_id at h
    rw [hnone] at h
    simp at h

/-- Witness for C7: a malformed id fails validation, a well-formed hex id
absent from an empty store fails NotFound. -/
theorem get_by_id_error_modes_witness :
    get_by_id [] "zz"
      = .error (.validation ("Invalid sentiment ID format: " ++ "zz")) ∧
    get_by_id [] "507f1f77bcf86cd799439011"
      = .error (.notFound "Sentiment" "507f1f77bcf86cd799439011") := by
  constructor
  · exact (get_by_id_error_modes [] "zz").1 (by decide)
  · cases hp : parseObjectId "507f1f77bcf86cd799439011" with
    | none => exact absurd hp (by decide)
    | some oid => exact (get_by_id_error_modes [] _).2.1 oid hp rfl

theorem summaryGroup_go (l : List SentDoc) (a : GroupAcc) :
    l.foldl (fun a d =>
      (⟨a.total + 1,
        a.positive + (if d.sentiment == "positive" then 1 else 0),
        a.negative + (if d.sentiment == "negative" then 1 else 0),
        a.neutral + (if d.sentiment == "neutral" then 1 else 0),
        a.score_sum + d.score⟩ : GroupAcc)) a
    = ⟨a.total + l.length,
       a.positive + l.countP (fun d => d.sentiment == "positive"),
       a.negative + l.countP (fun d => d.sentiment == "negative"),
       a.neutral + l.countP (fun d => d.sentiment == "neutral"),
       a.score_sum + (l.map (fun d => d.score)).sum⟩ := by
  induction l generalizing a with
  | nil => simp
  | cons d ds ih =>
    rw [List.foldl_cons, ih]
    simp only [List.countP_cons, List.map_cons, List.sum_cons, List.length_cons,
      GroupAcc.mk.injEq]
    refine ⟨by omega, ?_, ?_, ?_, by ring⟩
    · by_cases h : d.sentiment == "positive"
      · simp [h]; omega
      · simp [h]
    · by_cases h : d.sentiment == "negative"
      · simp [h]; omega
      · simp [h]
    · by_cases h : d.sentiment == "neutral"
      · simp [h]; omega
      · simp [h]

theorem summaryGroup_spec (docs : List SentDoc) :
    summaryGroup docs
      = ⟨docs.length,
         docs.countP (fun d => d.sentiment == "positive"),
         docs.countP (fun d => d.sentiment == "negative"),
         docs.countP (fun d => d.sentiment == "neutral"),
         (docs.map (fun d => d.score)).sum⟩ := by
  unfold summaryGroup
  rw [summaryGroup_go]
  simp

/-- C6: `get_summary` returns the record count, per-label counts, per-label
percentages `round(count/total*100, 2)` (0 when the collection is empty),
and the mean score rounded to 4 decimals (0 when the collection is empty). -/
theorem get_summary_stats (docs : List SentDoc) :
    (get_summary docs).total_count = docs.length ∧
    (get_summary docs).positive_count = docs.countP (fun d => d.sentiment == "positive") ∧
    (get_summary docs).negative_count = docs.countP (fun d => d.sentiment == "negative") ∧
    (get_summary docs).neutral_count = docs.countP (fun d => d.sentiment == "neutral") ∧
    (get_summary docs).positive_percentage
      = (if 0 < docs.length then
          pyRound 2 ((docs.countP (fun d => d.sentiment == "positive") : Rat)
            / (docs.length : Rat) * 100)
         else 0) ∧
    (get_summary docs).negative_percentage
      = (if 0 < docs.length then
          pyRound 2 ((docs.countP (fun d => d.sentiment == "negative") : Rat)
            / (docs.length : Rat) * 100)
         else 0) ∧
    (get_summary docs).neutral_percentage
      = (if 0 < docs.length then
          pyRound 2 ((docs.countP (fun d => d.sentiment == "neutral") : Rat)
            / (docs.length : Rat) * 100)
         else 0) ∧
    (get_summary docs).average_score
      = (if 0 < docs.length then
          pyRound 4 ((docs.map (fun d => d.score)).sum / (docs.length : Rat))
         else 0) := by
  by_cases h : docs.isEmpty
  · have hnil : docs = [] := List.isEmpty_iff.mp h
    subst hnil
    simp [get_summary]
  · have hne : docs ≠ [] := by simpa [List.isEmpty_iff] using h
    have hlen : 0 < docs.length := List.length_pos.mpr hne
    unfold get_summary
    rw [if_neg (by simpa using h), summaryGroup_spec]
    simp [hlen]

theorem createdDesc_trans (a b c : SentDoc) (h1 : createdDesc a b = true)
    (h2 : createdDesc b c = true) : createdDesc a c = true := by
  unfold createdDesc at h1 h2 ⊢
  have g1 := Nat.le_of_ble_eq_true h1
  have g2 := Nat.le_of_ble_eq_true h2
  exact Nat.ble_eq_true_of_le (Nat.le_trans g2 g1)

theorem createdDesc_total (a b : SentDoc) :
    (createdDesc a b || createdDesc b a) = true := by
  unfold createdDesc
  rcases Nat.le_total a.created_at.encode b.created_at.encode with h | h
  · rw [Nat.ble_eq_true_of_le h, Bool.or_true]
  · rw [Nat.ble_eq_true_of_le h, Bool.true_or]

theorem ceil_div_bounds (t limit : Nat) (hl : 0 < limit) (ht : 0 < t) :
    t ≤ ((t + limit - 1) / limit) * limit ∧
    ((t + limit - 1) / limit - 1) * limit < t := by
  have heq : t + limit - 1 = (t - 1) + limit := by omega
  rw [heq, Nat.add_div_right _ hl]
  constructor
  · have := lt_div_succ_mul (t - 1) limit hl
    omega
  · simp only [Nat.add_sub_cancel]
    have := Nat.div_mul_le_self (t - 1) limit
    omega

/-- C4: for `page ≥ 1` and `limit ≥ 1`, the paginated list returns the
filtered records sorted by `created_at` descending sliced to positions
`(page-1)*limit` through `page*limit`, with `total` the full filtered count
computed independently of the slice, `total_pages = ceil(total/limit)`
(0 when `total = 0`), and an empty page past the end while `total` still
reflects the true count. -/
theorem list_sentiments_pagination
    (docs : List SentDoc) (page limit : Nat) (filters : SentimentFilter)
    (out : List SentDoc × PaginationMeta) (query : List SentDoc)
    (hout : out = list_sentiments docs page limit filters)
    (hquery : query = docs.filter (matchesFilter filters))
    (hp : 1 ≤ page) (hl : 1 ≤ limit) :
    out.2.total = query.length ∧
    out.1 = ((query.mergeSort createdDesc).drop ((page - 1) * limit)).take limit ∧
    List.Pairwise (fun a b => b.created_at.encode ≤ a.created_at.encode) out.1 ∧
    (∀ d ∈ out.1, matchesFilter filters d = true) ∧
    (query.length = 0 → out.2.total_pages = 0) ∧
    (0 < query.length →
      query.length ≤ out.2.total_pages * limit ∧
      (out.2.total_pages - 1) * limit < query.length) ∧
    (out.2.total_pages < page → out.1 = []) := by
  subst hout hquery
  have hdata : (list_sentiments docs page limit filters).1
      = (((docs.filter (matchesFilter filters)).mergeSort createdDesc).drop
          ((page - 1) * limit)).take limit := rfl
  have htotal : (list_sentiments docs page limit filters).2.total
      = (docs.filter (matchesFilter filters)).length := rfl
  have htp : (list_sentiments docs page limit filters).2.total_pages
      = (if (docs.filter (matchesFilter filters)).length > 0
         then ((docs.filter (matchesFilter filters)).length + limit - 1) / limit
         else 0) := rfl
  have hsub : List.Sublist
      ((((docs.filter (matchesFilter filters)).mergeSort createdDesc).drop
        ((page - 1) * limit)).take limit)
      ((docs.filter (matchesFilter filters)).mergeSort createdDesc) :=
    (List.take_sublist _ _).trans (List.drop_sublist _ _)
  refine ⟨htotal, hdata, ?_, ?_, ?_, ?_, ?_⟩
  · rw [hdata]
    have hs := List.sorted_mergeSort createdDesc_trans createdDesc_total
      (docs.filter (matchesFilter filters))
    exact (hs.sublist hsub).imp (fun h => Nat.le_of_ble_eq_true h)
  · intro d hd
    rw [hdata] at hd
    have hd2 := List.mem_mergeSort.mp (hsub.subset hd)
    exact (List.mem_filter.mp hd2).2
  · intro h0
    rw [htp, h0]
    simp
  · intro hpos
    rw [htp, if_pos hpos]
    exact ceil_div_bounds _ limit hl hpos
  · intro hbeyond
    rw [hdata]
    have hlen : ((docs.filter (matchesFilter filters)).mergeSort createdDesc).length
        ≤ (page - 1) * limit := by
      rw [List.length_mergeSort]
      rw [htp] at hbeyond
      by_cases h0 : 0 < (docs.filter (matchesFilter filters)).length
      · rw [if_pos h0] at hbeyond
        have hb1 := (ceil_div_bounds _ limit hl h0).1
        have hb2 : ((docs.filter (matchesFilter filters)).length + limit - 1) / limit
            ≤ page - 1 := by omega
        have hb3 := Nat.mul_le_mul_right limit hb2
        omega
      · omega
    rw [List.drop_eq_nil_of_le hlen]
    exact List.take_nil

/-- Witness for C4 on a concrete two-document store: page 2 of size-1 pages
still reports the full total, and page 3 is past the end and empty. -/
theorem list_sentiments_pagination_witness :
    (1 : Nat) ≤ 2 ∧ (1 : Nat) ≤ 1 ∧
    (list_sentiments [wdoc1, wdoc2] 2 1 wnofilter).2.total = 2 ∧
    (list_sentiments [wdoc1, wdoc2] 3 1 wnofilter).1 = [] := by
  have h2 := list_sentiments_pagination [wdoc1, wdoc2] 2 1 wnofilter _ _ rfl rfl
    (by decide) (by decide)
  have h3 := list_sentiments_pagination [wdoc1, wdoc2] 3 1 wnofilter _ _ rfl rfl
    (by decide) (by decide)
  refine ⟨by decide, by decide, ?_, ?_⟩
  · rw [h2.1]
    decide
  · exact h3.2.2.2.2.2.2 (by decide)

theorem lexLe_trans : ∀ a b c : List Char,
    lexLe a b = true → lexLe b c = true → lexLe a c = true := by
  intro a
  induction a with
  | nil => intro b c _ _; rfl
  | cons x xs ih =>
    intro b c h1 h2
    cases b with
    | nil => simp [lexLe] at h1
    | cons y ys =>
      cases c with
      | nil => simp [lexLe] at h2
      | cons z zs =>
        simp only [lexLe] at h1 h2 ⊢
        by_cases hxy : x.toNat < y.toNat
        · by_cases hyz : y.toNat < z.toNat
          · rw [if_pos (by omega)]
          · by_cases hzy : z.toNat < y.toNat
            · rw [if_neg hyz, if_pos hzy] at h2
              exact absurd h2 (by simp)
            · rw [if_pos (by omega)]
        · by_cases hyx : y.toNat < x.toNat
          · rw [if_neg hxy, if_pos hyx] at h1
            exact absurd h1 (by simp)
          · rw [if_neg hxy, if_neg hyx] at h1
            by_cases hyz : y.toNat < z.toNat
            · rw [if_pos (by omega)]
            · by_cases hzy : z.toNat < y.toNat
              · rw [if_neg hyz, if_pos hzy] at h2
                exact absurd h2 (by simp)
              · rw [if_neg hyz, if_neg hzy] at h2
                rw [if_neg (by omega), if_neg (by omega)]
                exact ih ys zs h1 h2

theorem lexLe_total : ∀ a b : List Char, (lexLe a b || lexLe b a) = true := by
  intro a
  induction a with
  | nil => intro b; simp [lexLe]
  | cons x xs ih =>
    intro b
    cases b with
    | nil => simp [lexLe]
    | cons y ys =>
      simp only [lexLe]
      by_cases hxy : x.toNat < y.toNat
      · simp [hxy]
      · by_cases hyx : y.toNat < x.toNat
        · simp [hxy, hyx]
        · simp only [if_neg hxy, if_neg hyx]
          exact ih ys

theorem strLe_trans (a b c : String) (h1 : strLe a b = true) (h2 : strLe b c = true) :
    strLe a c = true :=
  lexLe_trans a.data b.data c.data h1 h2

theorem strLe_total (a b : String) : (strLe a b || strLe b a) = true :=
  lexLe_total a.data b.data

theorem get_timeline_eq (docs : List SentDoc) (date_from date_to : Option DateTime)
    (granularity : String) :
    get_timeline docs date_from date_to granularity
      = (((docs.filter (inDateRange date_from date_to)).map
          (fun d => formatKey granularity d.created_at)).dedup.mergeSort strLe).map
          (fun k =>
            { date := k
              positive := ((docs.filter (inDateRange date_from date_to)).filter
                (fun d => formatKey granularity d.created_at == k)).countP
                  (fun d => d.sentiment == "positive")
              negative := ((docs.filter (inDateRange date_from date_to)).filter
                (fun d => formatKey granularity d.created_at == k)).countP
                  (fun d => d.sentiment == "negative")
              neutral := ((docs.filter (inDateRange date_from date_to)).filter
                (fun d => formatKey granularity d.created_at == k)).countP
                  (fun d => d.sentiment == "neutral")
              total := ((docs.filter (inDateRange date_from date_to)).filter
                (fun d => formatKey granularity d.created_at == k)).length }) := rfl

/-- C5: for every record set, inclusive date range and granularity in
hour/day/week/month, the timeline has exactly one bucket per distinct
formatted key among the filtered records, sorted ascending by key, each
bucket carrying per-label counts plus a total; the key formats are
`YYYY-MM-DDTHH:00:00`, `YYYY-MM-DD`, `YYYY-Www` (ISO week number), and
`YYYY-MM`. -/
theorem get_timeline_buckets
    (docs : List SentDoc) (date_from date_to : Option DateTime) (granularity : String)
    (tl : List TimelinePoint) (filtered : List SentDoc)
    (htl : tl = get_timeline docs date_from date_to granularity)
    (hfil : filtered = docs.filter (inDateRange date_from date_to))
    (_hg : granularity = "hour" ∨ granularity = "day" ∨ granularity = "week"
      ∨ granularity = "month") :
    List.Pairwise (fun a b => strLe a.date b.date = true) tl ∧
    (tl.map (fun p => p.date)).Nodup ∧
    (∀ k : String, k ∈ tl.map (fun p => p.date)
      ↔ ∃ d ∈ filtered, formatKey granularity d.created_at = k) ∧
    (∀ p ∈ tl,
      p.positive = (filtered.filter
          (fun d => formatKey granularity d.created_at == p.date)).countP
            (fun d => d.sentiment == "positive") ∧
      p.negative = (filtered.filter
          (fun d => formatKey granularity d.created_at == p.date)).countP
            (fun d => d.sentiment == "negative") ∧
      p.neutral = (filtered.filter
          (fun d => formatKey granularity d.created_at == p.date)).countP
            (fun d => d.sentiment == "neutral") ∧
      p.total = (filtered.filter
          (fun d => formatKey granularity d.created_at == p.date)).length) ∧
    (formatKey "hour" ⟨2024, 3, 5, 7⟩ = "2024-03-05T07:00:00" ∧
     formatKey "day" ⟨2024, 3, 5, 7⟩ = "2024-03-05" ∧
     formatKey "week" ⟨2024, 1, 4, 0⟩ = "2024-W01" ∧
     formatKey "week" ⟨2021, 1, 1, 0⟩ = "2021-W53" ∧
     formatKey "month" ⟨2024, 3, 5, 7⟩ = "2024-03") := by
  subst htl hfil
  rw [get_timeline_eq]
  have hdates : ((((docs.filter (inDateRange date_from date_to)).map
        (fun d => formatKey granularity d.created_at)).dedup.mergeSort strLe).map
        (fun k =>
          ({ date := k
             positive := ((docs.filter (inDateRange date_from date_to)).filter
               (fun d => formatKey granularity d.created_at == k)).countP
                 (fun d => d.sentiment == "positive")
             negative := ((docs.filter (inDateRange date_from date_to)).filter
               (fun d => formatKey granularity d.created_at == k)).countP
                 (fun d => d.sentiment == "negative")
             neutral := ((docs.filter (inDateRange date_from date_to)).filter
               (fun d => formatKey granularity d.created_at == k)).countP
                 (fun d => d.sentiment == "neutral")
             total := ((docs.filter (inDateRange date_from date_to)).filter
               (fun d => formatKey granularity d.created_at == k)).length }
            : TimelinePoint))).map (fun p => p.date)
      = ((docs.filter (inDateRange date_from date_to)).map
          (fun d => formatKey granularity d.created_at)).dedup.mergeSort strLe := by
    rw [List.map_map]
    exact List.map_id _
  refine ⟨?_, ?_, ?_, ?_, by decide, by decide, by decide, by decide, by decide⟩
  · have hs := List.sorted_mergeSort strLe_trans strLe_total
      ((docs.filter (inDateRange date_from date_to)).map
        (fun d => formatKey granularity d.created_at)).dedup
    exact List.pairwise_map.mpr (hs.imp (fun h => h))
  · rw [hdates]
    exact ((List.mergeSort_perm _ strLe).symm).nodup (List.nodup_dedup _)
  · intro k
    rw [hdates, List.mem_mergeSort, List.mem_dedup, List.mem_map]
  · intro p hp
    rcases List.mem_map.mp hp with ⟨k, _, hk⟩
    subst hk
    exact ⟨rfl, rfl, rfl, rfl⟩

/-- Witness for C5: the day-granularity timeline of a concrete store has
ascending, duplicate-free bucket keys. -/
theorem get_timeline_buckets_witness :
    List.Pairwise (fun a b => strLe a.date b.date = true)
      (get_timeline [wdoc1, wdoc2] none none "day") ∧
    ((get_timeline [wdoc1, wdoc2] none none "day").map (fun p => p.date)).Nodup := by
  have h := get_timeline_buckets [wdoc1, wdoc2] none none "day" _ _ rfl rfl
    (Or.inr (Or.inl rfl))
  exact ⟨h.1, h.2.1⟩

theorem pyTruncate_length (s : String) (n : Nat) :
    (pyTruncate s n).length = min n s.length := by
  show (s.data.take n).length = min n s.data.length
  exact List.length_take n s.data

/-- C9 counterexample: the Twitter fetcher applies no text filtering, so a
2-character tweet comes back as a post with text below the 10-character
minimum. -/
theorem twitter_fetch_no_min_length :
    TwitterFetcher.fetch [⟨"1", "hi", "u1", 0⟩] []
      = [⟨"1", "hi", "twitter", "unknown", 0⟩] ∧
    ¬ (10 ≤ ("hi" : String).length) := by
  exact ⟨by decide, by decide⟩

/-- C9 (amended): the Reddit fetcher returns only posts whose text has
between 10 and 5000 characters; bare `[removed]`/`[deleted]` posts fall
below the minimum and are dropped, and a `[removed]` selftext is never
concatenated.  (The Twitter fetcher performs no such filtering.) -/
theorem reddit_fetch_min_text_length (children : List RedditFetcher.RedditPost) :
    (∀ p ∈ RedditFetcher.fetch children,
      10 ≤ p.text.length ∧ p.text.length ≤ 5000) ∧
    RedditFetcher.fetch [⟨"a", "[removed]", "", "u", 0⟩] = [] ∧
    RedditFetcher.fetch [⟨"b", "[deleted]", "", "u", 0⟩] = [] ∧
    RedditFetcher.fetch [⟨"c", "An ordinary title", "[removed]", "u", 0⟩]
      = [⟨"c", "An ordinary title", "reddit", "u", 0⟩] := by
  refine ⟨?_, by decide, by decide, by decide⟩
  intro p hp
  rcases List.mem_filterMap.mp hp with ⟨post, _, hpost⟩
  unfold RedditFetcher.processPost at hpost
  dsimp only at hpost
  split at hpost <;> split at hpost
  · exact Option.noConfusion hpost
  · rename_i hlen
    rw [← Option.some.inj hpost]
    dsimp only
    rw [pyTruncate_length]
    omega
  · exact Option.noConfusion hpost
  · rename_i hlen
    rw [← Option.some.inj hpost]
    dsimp only
    rw [pyTruncate_length]
    omega

/-- Witness for the amended C9: a concrete kept Reddit post has text of at
least 10 characters. -/
theorem reddit_fetch_min_text_length_witness :
    (⟨"c", "An ordinary title", "reddit", "u", 0⟩ : FetchedPost)
      ∈ RedditFetcher.fetch [⟨"c", "An ordinary title", "", "u", 0⟩] ∧
    10 ≤ (FetchedPost.text ⟨"c", "An ordinary title", "reddit", "u", 0⟩).length := by
  refine ⟨by decide, ?_⟩
  exact ((reddit_fetch_min_text_length [⟨"c", "An ordinary title", "", "u", 0⟩]).1
    ⟨"c", "An ordinary title", "reddit", "u", 0⟩ (by decide)).1
